import Mathlib

/- Shallow embedding of the agentic tool-calling core of the
   AI-Personal-Assistant repository: the VoiceAgent conversation
   orchestrator (src/agent.py) and the ToolBox tool registry together
   with its schemas (src/tools.py).

   Modelling conventions:
   * Python dict/JSON values are modelled by the inductive type Json.
   * A Python exception is modelled by the error side of Except, the
     error value being str(e), the exception text.
   * The OpenAI chat backend is an external collaborator; it is
     modelled by an environment-supplied oracle indexed by the ordinal
     of the backend call inside one turn (mirroring how the spec mocks
     the backend per iteration).
   * datetime.now, platform data and the dynamic eval used by the
     calculate tool are likewise environment-supplied oracles, since
     they read the outside world. -/

/-- Model of a Python/JSON value as produced by json.loads and passed
around as tool arguments and tool results. -/
inductive Json where
  | null : Json
  | bool (b : Bool) : Json
  | num (n : Int) : Json
  | str (s : String) : Json
  | arr (elems : List Json) : Json
  | obj (fields : List (String × Json)) : Json

/-- Python dict insertion: a repeated key overwrites the stored value in
place, a new key is appended at the end (dict insertion order). -/
def upsert (kvs : List (String × Json)) (key : String) (v : Json) : List (String × Json) :=
  if kvs.any (fun kv => kv.1 == key) then
    kvs.map (fun kv => if kv.1 == key then (key, v) else kv)
  else kvs ++ [(key, v)]

def skip_ws : List Char → List Char
  | c :: cs => if c = ' ' ∨ c = '\t' ∨ c = '\n' ∨ c = '\r' then skip_ws cs else c :: cs
  | [] => []

/-- Read the characters of a JSON string literal after the opening quote,
up to the closing quote; handles the escapes needed for round-tripping
(backslash and quote).  Returns the content and the remaining input. -/
def str_aux (acc : List Char) : List Char → Option (List Char × List Char)
  | '"' :: cs => some (acc.reverse, cs)
  | '\\' :: c :: cs =>
    if c = '"' ∨ c = '\\' then str_aux (c :: acc) cs else none
  | c :: cs => str_aux (c :: acc) cs
  | [] => none

def digits_aux (acc : Nat) : List Char → Nat × List Char
  | c :: cs => if c.isDigit then digits_aux (acc * 10 + (c.toNat - 48)) cs else (acc, c :: cs)
  | [] => (acc, [])

/-- Read a (possibly negative) integer literal. -/
def read_int : List Char → Option (Json × List Char)
  | '-' :: c :: cs =>
    if c.isDigit then
      match digits_aux (c.toNat - 48) cs with
      | (n, rest) => some (.num (-(Int.ofNat n)), rest)
    else none
  | c :: cs =>
    if c.isDigit then
      match digits_aux (c.toNat - 48) cs with
      | (n, rest) => some (.num (Int.ofNat n), rest)
    else none
  | [] => none

mutual

/-- Recursive-descent model of the json.loads grammar (objects, arrays,
strings, integers, the three literals), with a fuel argument bounding
the recursion depth. -/
def parse_value : Nat → List Char → Option (Json × List Char)
  | 0, _ => none
  | fuel + 1, input =>
    match skip_ws input with
    | 'n' :: 'u' :: 'l' :: 'l' :: rest => some (.null, rest)
    | 't' :: 'r' :: 'u' :: 'e' :: rest => some (.bool true, rest)
    | 'f' :: 'a' :: 'l' :: 's' :: 'e' :: rest => some (.bool false, rest)
    | '"' :: rest =>
      match str_aux [] rest with
      | some (cs, rest2) => some (.str (String.mk cs), rest2)
      | none => none
    | '{' :: rest =>
      match skip_ws rest with
      | '}' :: rest2 => some (.obj [], rest2)
      | rest2 => parse_pairs fuel rest2 []
    | '[' :: rest =>
      match skip_ws rest with
      | ']' :: rest2 => some (.arr [], rest2)
      | rest2 => parse_items fuel rest2 []
    | rest => read_int rest

def parse_pairs : Nat → List Char → List (String × Json) → Option (Json × List Char)
  | 0, _, _ => none
  | fuel + 1, input, acc =>
    match skip_ws input with
    | '"' :: rest =>
      match str_aux [] rest with
      | none => none
      | some (key, rest2) =>
        match skip_ws rest2 with
        | ':' :: rest3 =>
          match parse_value fuel rest3 with
          | none => none
          | some (v, rest4) =>
            match skip_ws rest4 with
            | ',' :: rest5 => parse_pairs fuel rest5 (upsert acc (String.mk key) v)
            | '}' :: rest5 => some (.obj (upsert acc (String.mk key) v), rest5)
            | _ => none
        | _ => none
    | _ => none

def parse_items : Nat → List Char → List Json → Option (Json × List Char)
  | 0, _, _ => none
  | fuel + 1, input, acc =>
    match parse_value fuel input with
    | none => none
    | some (v, rest) =>
      match skip_ws rest with
      | ',' :: rest2 => parse_items fuel rest2 (acc ++ [v])
      | ']' :: rest2 => some (.arr (acc ++ [v]), rest2)
      | _ => none

end

/-- Model of json.loads: parse the whole input, raising (returning an
error) when no value can be parsed or trailing input remains.  The error
string stands for str(e) of the raised json.JSONDecodeError. -/
def json_loads (s : String) : Except String Json :=
  let cs := s.toList
  match parse_value (cs.length + 1) cs with
  | some (v, rest) => if (skip_ws rest).isEmpty then .ok v else .error "Extra data"
  | none => .error "Expecting value"

def escape_json (s : String) : String :=
  String.mk (s.toList.foldr (fun c acc => if c = '"' ∨ c = '\\' then '\\' :: c :: acc else c :: acc) [])

mutual

/-- Model of json.dumps with its default separators (comma-space and
colon-space), preserving dict insertion order. -/
def Json.dumps : Json → String
  | .null => "null"
  | .bool b => if b then "true" else "false"
  | .num n => toString n
  | .str s => "\"" ++ escape_json s ++ "\""
  | .arr xs => "[" ++ String.intercalate ", " (dumps_items xs) ++ "]"
  | .obj kvs => "\x7b" ++ String.intercalate ", " (dumps_fields kvs) ++ "\x7d"

def dumps_items : List Json → List String
  | [] => []
  | x :: xs => Json.dumps x :: dumps_items xs

def dumps_fields : List (String × Json) → List String
  | [] => []
  | (k, v) :: kvs => ("\"" ++ escape_json k ++ "\": " ++ Json.dumps v) :: dumps_fields kvs

end

/-- Lookup of a key in a Json object (Python d[key] / d.get(key)). -/
def json_field (j : Json) (key : String) : Option Json :=
  match j with
  | .obj kvs => (kvs.find? (fun kv => kv.1 == key)).map (fun kv => kv.2)
  | _ => none

/- ===== src/tools.py : the ToolBox and its schemas ===== -/

/-- The function part of a tool call emitted by the model backend
(tool_call.function in src/agent.py): a tool name and the raw JSON
argument string. -/
structure ToolCallFunction where
  name : String
  arguments : String
deriving Repr, DecidableEq

/-- A tool-invocation request attached to an assistant message
(tool_call objects of the OpenAI response). -/
structure ToolCall where
  id : String
  type : String
  function : ToolCallFunction
deriving Repr, DecidableEq

/-- One entry of VoiceAgent.conversation_history: a Python dict with a
role, optional content, and the optional keys name, tool_calls and
tool_call_id that some entries carry. -/
structure Message where
  role : String
  content : Option String
  name : Option String
  tool_calls : Option (List ToolCall)
  tool_call_id : Option String
deriving Repr, DecidableEq

/-- What one backend call produces: response.choices[0].finish_reason
together with the assistant message content and tool_calls. -/
structure BackendResponse where
  finish_reason : String
  content : Option String
  tool_calls : Option (List ToolCall)
deriving Repr, DecidableEq

/-- The values datetime.now() is formatted to inside
ToolBox.get_current_time (strftime patterns H:M:S, Y-m-d, A). -/
structure NowInfo where
  time : String
  date : String
  day_of_week : String
deriving Repr, DecidableEq

/-- The platform module values read by ToolBox.get_system_info. -/
structure SysInfo where
  system : String
  release : String
  version : String
  machine : String
  processor : String
  python_version : String
deriving Repr, DecidableEq

/-- The external world the agent core reads: the chat backend (indexed
by the ordinal of the backend call inside the current turn), the eval
oracle used by the calculate tool, the clock and the platform data.
A backend call that raises is a .error carrying the exception text. -/
structure Env where
  backend : Nat → Except String BackendResponse
  evalExpr : String → Except String Json
  now : NowInfo
  sys : SysInfo

def find_kw (kwargs : List (String × Json)) (key : String) : Option Json :=
  (kwargs.find? (fun kv => kv.1 == key)).map (fun kv => kv.2)

/-- Python call-time keyword binding, step 1: a keyword that is not a
declared parameter raises TypeError. -/
def check_kwargs (fname : String) (allowed : List String) (kwargs : List (String × Json)) :
    Except String Unit :=
  match kwargs.find? (fun kv => !(allowed.contains kv.1)) with
  | some kv => .error (fname ++ "() got an unexpected keyword argument \x27" ++ kv.1 ++ "\x27")
  | none => .ok ()

/-- Python call-time keyword binding, step 2: a parameter without a
default that is not supplied raises TypeError. -/
def require_kw (fname : String) (kwargs : List (String × Json)) (key : String) :
    Except String Json :=
  match find_kw kwargs key with
  | some v => .ok v
  | none => .error (fname ++ "() missing 1 required positional argument: \x27" ++ key ++ "\x27")

/-- ToolBox.get_current_time: formats the current time; echoes the
timezone argument (default "local"). -/
def get_current_time_fn (env : Env) (kwargs : List (String × Json)) : Except String Json := do
  check_kwargs "get_current_time" ["timezone"] kwargs
  let timezone := (find_kw kwargs "timezone").getD (.str "local")
  pure (.obj [("status", .str "success"), ("time", .str env.now.time),
    ("date", .str env.now.date), ("day_of_week", .str env.now.day_of_week),
    ("timezone", timezone)])

/-- ToolBox.get_current_weather: dummy weather data; temperature is 22
when unit equals "celsius", else 72. -/
def get_current_weather_fn (_env : Env) (kwargs : List (String × Json)) : Except String Json := do
  check_kwargs "get_current_weather" ["location", "unit"] kwargs
  let location ← require_kw "get_current_weather" kwargs "location"
  let unit := (find_kw kwargs "unit").getD (.str "celsius")
  let is_celsius := match unit with | .str u => u == "celsius" | _ => false
  pure (.obj [("status", .str "success"), ("location", location),
    ("temperature", .num (if is_celsius then 22 else 72)), ("unit", unit),
    ("condition", .str "Partly Cloudy"), ("humidity", .num 65), ("wind_speed", .num 15),
    ("note", .str "This is dummy data. Integrate a real weather API for production use.")])

/-- One dummy result entry of ToolBox.search_web, for loop index i
(Python builds it with i+1 in the f-strings). -/
def search_result_entry (query : String) (i : Nat) : Json :=
  .obj [("title", .str ("Result " ++ toString (i + 1) ++ " for \x27" ++ query ++ "\x27")),
    ("snippet", .str ("This is a dummy search result snippet for " ++ query)),
    ("url", .str ("https://example.com/result" ++ toString (i + 1)))]

/-- The body of ToolBox.search_web: the result list iterates over
range(min(num_results, 3)), so it holds max(min(num_results, 3), 0)
entries. -/
def ToolBox.search_web (query : String) (num_results : Int) : Json :=
  .obj [("status", .str "success"), ("query", .str query),
    ("results", .arr ((List.range (min num_results 3).toNat).map (search_result_entry query))),
    ("note", .str "This is dummy data. Integrate a real search API for production use.")]

/-- Python str() for the Json values that can appear as arguments; the
container cases are an approximation, they are never exercised here. -/
def py_str : Json → String
  | .str s => s
  | .num n => toString n
  | .bool b => if b then "True" else "False"
  | .null => "None"
  | v => Json.dumps v

/-- Keyword wrapper of ToolBox.search_web.  A non-integer num_results
makes min(num_results, 3) raise TypeError inside the body (a Python
bool counts as an integer). -/
def search_web_fn (_env : Env) (kwargs : List (String × Json)) : Except String Json := do
  check_kwargs "search_web" ["query", "num_results"] kwargs
  let query ← require_kw "search_web" kwargs "query"
  match (find_kw kwargs "num_results").getD (.num 3) with
  | .num n => pure (ToolBox.search_web (py_str query) n)
  | .bool b => pure (ToolBox.search_web (py_str query) (if b then 1 else 0))
  | other =>
    .error ("\x27<\x27 not supported between instances of \x27int\x27 and \x27" ++
      (match other with | .str _ => "str" | .arr _ => "list" | .obj _ => "dict" | _ => "NoneType") ++ "\x27")

/-- ToolBox.get_system_info: reports the platform module data. -/
def get_system_info_fn (env : Env) (kwargs : List (String × Json)) : Except String Json := do
  check_kwargs "get_system_info" [] kwargs
  pure (.obj [("status", .str "success"), ("system", .str env.sys.system),
    ("release", .str env.sys.release), ("version", .str env.sys.version),
    ("machine", .str env.sys.machine), ("processor", .str env.sys.processor),
    ("python_version", .str env.sys.python_version)])

/-- ToolBox.execute_system_command: intentionally disabled; the body is
a pure constructor that performs no execution and always returns the
fixed status=error refusal dict, echoing the command argument. -/
def execute_system_command_fn (_env : Env) (kwargs : List (String × Json)) : Except String Json := do
  check_kwargs "execute_system_command" ["command"] kwargs
  let command ← require_kw "execute_system_command" kwargs "command"
  pure (.obj [("status", .str "error"),
    ("message", .str "System command execution is disabled for security reasons."),
    ("command", command),
    ("note", .str "To enable this, modify the execute_system_command function and implement proper security controls.")])

/-- ToolBox.calculate: evaluates the expression with a restricted eval
(modelled by the environment oracle); every exception raised inside the
body, including the TypeError of eval on a non-string, is caught by the
internal try/except and reported as a status=error dict. -/
def calculate_fn (env : Env) (kwargs : List (String × Json)) : Except String Json := do
  check_kwargs "calculate" ["expression"] kwargs
  let expression ← require_kw "calculate" kwargs "expression"
  match expression with
  | .str s =>
    match env.evalExpr s with
    | .ok result => pure (.obj [("status", .str "success"), ("expression", .str s),
        ("result", result)])
    | .error e => pure (.obj [("status", .str "error"), ("expression", .str s),
        ("error", .str e)])
  | v => pure (.obj [("status", .str "error"), ("expression", v),
      ("error", .str "eval() arg 1 must be a string, bytes or code object")])

/-- An attribute of the ToolBox class as seen by getattr: either one of
the six static methods, or a plain (non-callable) data attribute. -/
inductive ToolAttr where
  | callable (fn : Env → List (String × Json) → Except String Json)
  | value (v : Json)

def ToolAttr.is_callable : ToolAttr → Bool
  | .callable _ => true
  | .value _ => false

/-- The docstring of the ToolBox class (its value of the attribute
named double-underscore doc). -/
def toolbox_doc : String :=
  "\n    Static methods that the LLM can call through OpenAI\x27s function calling.\n    Each method here should have a corresponding schema in TOOL_SCHEMAS.\n    "

/-- getattr on the ToolBox class: the six static methods defined in the
class body plus the docstring attribute that every Python class carries
(the further inherited object attributes are not needed here). -/
def toolbox_getattr : String → Option ToolAttr
  | "get_current_time" => some (.callable get_current_time_fn)
  | "get_current_weather" => some (.callable get_current_weather_fn)
  | "search_web" => some (.callable search_web_fn)
  | "get_system_info" => some (.callable get_system_info_fn)
  | "execute_system_command" => some (.callable execute_system_command_fn)
  | "calculate" => some (.callable calculate_fn)
  | "__doc__" => some (.value (.str toolbox_doc))
  | _ => none

/-- get_tool_function (src/tools.py): plain getattr(ToolBox, name);
a missing attribute raises AttributeError. -/
def get_tool_function (function_name : String) : Except String ToolAttr :=
  match toolbox_getattr function_name with
  | some f => .ok f
  | none => .error ("type object \x27ToolBox\x27 has no attribute \x27" ++ function_name ++ "\x27")

/-- The parameter schema of one tool parameter as written in
TOOL_SCHEMAS (type, description, optional enum, optional bounds). -/
structure ParamSchema where
  type : String
  description : String
  enum : Option (List String)
  minimum : Option Int
  maximum : Option Int
deriving Repr, DecidableEq

/-- The function part of one entry of TOOL_SCHEMAS. -/
structure FunctionSchema where
  name : String
  description : String
  properties : List (String × ParamSchema)
  required : List String
deriving Repr, DecidableEq

/-- One entry of TOOL_SCHEMAS. -/
structure ToolSchema where
  type : String
  function : FunctionSchema
deriving Repr, DecidableEq

/-- TOOL_SCHEMAS (src/tools.py): the function schemas advertised to the
model, in source order. -/
def TOOL_SCHEMAS : List ToolSchema := [
  ⟨"function", ⟨"get_current_time",
    "Get the current time and date. Use this when the user asks about the time or date.",
    [("timezone", ⟨"string", "The timezone (currently only \x27local\x27 is supported)",
      some ["local"], none, none⟩)],
    []⟩⟩,
  ⟨"function", ⟨"get_current_weather",
    "Get the current weather for a specific location. Use this when the user asks about weather conditions.",
    [("location", ⟨"string", "The city or location name, e.g., \x27New York\x27, \x27London\x27, \x27Tokyo\x27",
      none, none, none⟩),
     ("unit", ⟨"string", "Temperature unit", some ["celsius", "fahrenheit"], none, none⟩)],
    ["location"]⟩⟩,
  ⟨"function", ⟨"search_web",
    "Search the web for information. Use this when the user asks you to look up information you don\x27t know.",
    [("query", ⟨"string", "The search query", none, none, none⟩),
     ("num_results", ⟨"integer", "Number of search results to return (1-5)", none, some 1, some 5⟩)],
    ["query"]⟩⟩,
  ⟨"function", ⟨"get_system_info",
    "Get information about the computer system. Use this when the user asks about system specifications or OS details.",
    [],
    []⟩⟩,
  ⟨"function", ⟨"calculate",
    "Perform mathematical calculations. Use this when the user asks to calculate or solve math problems.",
    [("expression", ⟨"string", "Mathematical expression to evaluate, e.g., \x272 + 2\x27, \x2710 * 5\x27, \x27pow(2, 8)\x27",
      none, none, none⟩)],
    ["expression"]⟩⟩]

/-- The tool names advertised by TOOL_SCHEMAS. -/
def schema_names : List String := TOOL_SCHEMAS.map (fun ts => ts.function.name)

/- ===== src/agent.py : the VoiceAgent orchestrator ===== -/

/-- The VoiceAgent state: the system prompt, the max_history bound and
the conversation history.  peak is a ghost field (not part of the
source state): it records the largest history length observed right
after an append of a user-role or assistant-role message, which is what
the trim invariant speaks about.  It never influences behaviour. -/
structure AgentState where
  system_prompt : String
  max_history : Nat
  conversation_history : List Message
  peak : Nat
deriving Repr, DecidableEq

/-- VoiceAgent construction: history starts as the single system
message. -/
def init_state (system_prompt : String) (max_history : Nat) : AgentState :=
  { system_prompt := system_prompt,
    max_history := max_history,
    conversation_history := [⟨"system", some system_prompt, none, none, none⟩],
    peak := 1 }

/-- Python list slice lst[-m:].  For m = 0 Python reads lst[0:], the
whole list (negating zero gives zero), so that case keeps everything. -/
def py_tail_slice (m : Nat) (l : List Message) : List Message :=
  if m = 0 then l else l.drop (l.length - m)

/-- VoiceAgent.add_message: build the message dict, append it, then
trim the history to the system message plus the last max_history
entries whenever it exceeds max_history + 1 entries.  A falsy name
(None or the empty string) stores no name key. -/
def add_message (st : AgentState) (role content : String) (name : Option String) : AgentState :=
  let message : Message :=
    ⟨role, some content, if name = some "" then none else name, none, none⟩
  let h := st.conversation_history ++ [message]
  let h2 := if h.length > st.max_history + 1
    then h.take 1 ++ py_tail_slice st.max_history h
    else h
  { st with conversation_history := h2, peak := max st.peak h2.length }

/-- A raw self.conversation_history.append(...) as performed for the
assistant tool-call message and for tool-result messages: no trimming.
The ghost peak field only tracks user/assistant appends. -/
def push (st : AgentState) (m : Message) : AgentState :=
  { st with
    conversation_history := st.conversation_history ++ [m],
    peak := if m.role == "user" || m.role == "assistant"
      then max st.peak (st.conversation_history.length + 1) else st.peak }

/-- The fallback returned when a stop response carries falsy content. -/
def not_sure_response : String := "I\x27m not sure how to respond to that."

/-- The fixed apology for anomalous finish reasons. -/
def anomaly_fallback : String := "I apologize, but I encountered an issue processing your request."

/-- The fixed message of the except-branch of the agentic loop. -/
def error_response : String := "I\x27m sorry, I encountered an error while processing your request."

/-- The fixed message appended when max_iterations is exhausted. -/
def timeout_response : String := "I apologize, but I\x27m having trouble completing that request."

/-- The default system prompt of VoiceAgent. -/
def default_system_prompt : String :=
  "You are a helpful, friendly AI voice assistant. You can have natural conversations and use available tools when needed. Keep your responses concise and conversational since they will be spoken aloud. When using tools, explain what you\x27re doing in a natural way. Today\x27s date is January 7, 2026."

def max_iterations : Nat := 5

/-- Python truthiness of assistant_message.tool_calls: present and
non-empty. -/
def truthy_calls : Option (List ToolCall) → Bool
  | some (_ :: _) => true
  | _ => false

/-- Python: assistant_message.content or fallback — None and the empty
string are falsy. -/
def py_or_default (content : Option String) (dflt : String) : String :=
  match content with
  | some s => if s == "" then dflt else s
  | none => dflt

/-- What stands inside the per-invocation try block: resolve the tool
with get_tool_function (AttributeError when absent), then call it with
keyword-unpacked arguments (TypeError when the arguments are not a
mapping or the attribute is not callable, or any exception the tool
raises). -/
def attempt_tool (env : Env) (function_name : String) (args : Json) : Except String Json := do
  let f ← get_tool_function function_name
  match args with
  | .obj kwargs =>
    match f with
    | .callable g => g env kwargs
    | .value _ => .error "\x27str\x27 object is not callable"
  | _ => .error "argument after ** must be a mapping"

/-- The per-invocation try/except of process_user_input: a successful
call serializes the result, any exception is converted into the
serialized status=error dict carrying str(e). -/
def execute_tool_call (env : Env) (function_name : String) (args : Json) : String :=
  match attempt_tool env function_name args with
  | .ok function_result => Json.dumps function_result
  | .error e => Json.dumps (.obj [("status", .str "error"), ("error", .str e)])

/-- The tool-role message appended for one executed invocation. -/
def tool_result_message (env : Env) (tc : ToolCall) (args : Json) : Message :=
  ⟨"tool", some (execute_tool_call env tc.function.name args),
    some tc.function.name, none, some tc.id⟩

/-- The per-iteration loop over assistant_message.tool_calls.  The
json.loads of the raw arguments stands before the try block, so its
exception propagates; the error side carries the exception text and the
state at the raise (the appends already made stay, mirroring in-place
mutation of self.conversation_history). -/
def run_tool_calls (env : Env) (st : AgentState) :
    List ToolCall → Except (String × AgentState) AgentState
  | [] => .ok st
  | tc :: rest =>
    match json_loads tc.function.arguments with
    | .error e => .error (e, st)
    | .ok function_args =>
      run_tool_calls env (push st (tool_result_message env tc function_args)) rest

/-- The outcome of one iteration body: branch to the next iteration
(continue) or leave the loop with the final answer (return). -/
inductive StepOutcome where
  | next (st : AgentState)
  | done (answer : String) (st : AgentState)

/-- The body of one while-iteration of process_user_input, without its
enclosing try/except: call the backend, then dispatch on finish_reason.
Errors (backend exceptions and argument-deserialization exceptions)
propagate together with the state at the raise. -/
def loop_body (env : Env) (call_idx : Nat) (st : AgentState) :
    Except (String × AgentState) StepOutcome :=
  match env.backend call_idx with
  | .error e => .error (e, st)
  | .ok response =>
    if response.finish_reason == "tool_calls" && truthy_calls response.tool_calls then
      let st := push st ⟨"assistant", response.content, none, response.tool_calls, none⟩
      match run_tool_calls env st (response.tool_calls.getD []) with
      | .error es => .error es
      | .ok st2 => .ok (.next st2)
    else if response.finish_reason == "stop" then
      let final_response := py_or_default response.content not_sure_response
      .ok (.done final_response (add_message st "assistant" final_response none))
    else
      .ok (.done anomaly_fallback (add_message st "assistant" anomaly_fallback none))

/-- The agentic while loop, fuelled by the remaining iteration budget.
Each iteration body runs under try/except Exception: an error from the
body is caught, the fixed error_response is appended and returned.  The
result triple is (returned string, final state, number of backend calls
made); the outer Except is the channel for an exception escaping the
loop, which the catch-all handler makes impossible. -/
def agent_loop (env : Env) : Nat → Nat → AgentState → Except String (String × AgentState × Nat)
  | 0, calls, st =>
    .ok (timeout_response, add_message st "assistant" timeout_response none, calls)
  | fuel + 1, calls, st =>
    match loop_body env calls st with
    | .error (_e, st2) =>
      .ok (error_response, add_message st2 "assistant" error_response none, calls + 1)
    | .ok (.done answer st2) => .ok (answer, st2, calls + 1)
    | .ok (.next st2) => agent_loop env fuel (calls + 1) st2

/-- VoiceAgent.process_user_input: append the user message, then run
the agentic loop with the iteration budget. -/
def process_user_input (env : Env) (st : AgentState) (user_input : String) :
    Except String (String × AgentState × Nat) :=
  agent_loop env max_iterations 0 (add_message st "user" user_input none)

/-- VoiceAgent.reset_conversation: history becomes the single system
message again. -/
def reset_conversation (st : AgentState) : AgentState :=
  { st with conversation_history := [⟨"system", some st.system_prompt, none, none, none⟩] }

/-- VoiceAgent.get_conversation_history. -/
def get_conversation_history (st : AgentState) : List Message :=
  st.conversation_history

/- ===== concrete mocked environments for the scenario claims ===== -/

/-- The clock of the round-trip scenario: 14:30:00 on 2026-01-07. -/
def now_scenario : NowInfo := ⟨"14:30:00", "2026-01-07", "Wednesday"⟩

def sys_scenario : SysInfo := ⟨"Linux", "6.1.0", "#1 SMP", "x86_64", "x86_64", "3.11.4"⟩

/-- eval oracle that refuses every expression (the calculate tool is
not exercised by the scenarios). -/
def no_eval : String → Except String Json := fun _ => .error "name \x27eval\x27 oracle unused"

/-- A backend that always raises (for claims that never reach it). -/
def backend_silent : Nat → Except String BackendResponse := fun _ => .error "no mocked response"

def env_demo : Env := ⟨backend_silent, no_eval, now_scenario, sys_scenario⟩

/-- Round-trip mock: iteration 1 requests get_current_time with empty
arguments, iteration 2 stops with the final text. -/
def backend_roundtrip : Nat → Except String BackendResponse
  | 0 => .ok ⟨"tool_calls", none, some [⟨"call_1", "function", ⟨"get_current_time", "\x7b\x7d"⟩⟩]⟩
  | 1 => .ok ⟨"stop", some "It\x27s 2:30 PM.", none⟩
  | _ => .error "no mocked response"

def env_roundtrip : Env := ⟨backend_roundtrip, no_eval, now_scenario, sys_scenario⟩

/-- Mock whose single tool call carries arguments that are not valid
JSON. -/
def backend_badargs : Nat → Except String BackendResponse
  | 0 => .ok ⟨"tool_calls", none, some [⟨"call_1", "function", ⟨"get_current_time", "not json"⟩⟩]⟩
  | _ => .error "no mocked response"

def env_badargs : Env := ⟨backend_badargs, no_eval, now_scenario, sys_scenario⟩

/-- Mock for the trim counterexample: one well-formed tool call, then a
stop. -/
def backend_trim : Nat → Except String BackendResponse
  | 0 => .ok ⟨"tool_calls", none, some [⟨"call_a", "function", ⟨"get_current_time", "\x7b\x7d"⟩⟩]⟩
  | 1 => .ok ⟨"stop", some "done", none⟩
  | _ => .error "no mocked response"

def env_trim : Env := ⟨backend_trim, no_eval, now_scenario, sys_scenario⟩

/-- Mock that requests the same well-formed tool call on every
iteration, never stopping. -/
def backend_always_tools : Nat → Except String BackendResponse :=
  fun _ => .ok ⟨"tool_calls", none, some [⟨"call_t", "function", ⟨"get_current_time", "\x7b\x7d"⟩⟩]⟩

def env_always_tools : Env := ⟨backend_always_tools, no_eval, now_scenario, sys_scenario⟩

/-- Two invocations that must both fail at the invocation boundary: an
unknown tool name, and a known tool called without its required
argument. -/
def tcs_failing : List ToolCall :=
  [⟨"call_x", "function", ⟨"nonexistent_tool", "\x7b\x7d"⟩⟩,
   ⟨"call_y", "function", ⟨"get_current_weather", "\x7b\x7d"⟩⟩]

/- ===== derived observations used by the claims ===== -/

/-- The mapping a raw argument string deserializes to (only meaningful
when json_loads succeeds). -/
def loads_val (s : String) : Json :=
  match json_loads s with
  | .ok v => v
  | .error _ => .null

/-- The results list of a search_web result dict. -/
def search_results_of (j : Json) : List Json :=
  match json_field j "results" with
  | some (.arr xs) => xs
  | _ => []

/-- The exact final agent state of the round-trip scenario. -/
def roundtrip_final : AgentState :=
  { system_prompt := "You are a test assistant.",
    max_history := 20,
    conversation_history := [
      ⟨"system", some "You are a test assistant.", none, none, none⟩,
      ⟨"user", some "What time is it?", none, none, none⟩,
      ⟨"assistant", none, none, some [⟨"call_1", "function", ⟨"get_current_time", "\x7b\x7d"⟩⟩], none⟩,
      ⟨"tool", some "\x7b\"status\": \"success\", \"time\": \"14:30:00\", \"date\": \"2026-01-07\", \"day_of_week\": \"Wednesday\", \"timezone\": \"local\"\x7d",
        some "get_current_time", none, some "call_1"⟩,
      ⟨"assistant", some "It\x27s 2:30 PM.", none, none, none⟩],
    peak := 5 }

/-- C6: in the round-trip scenario (mocked backend: iteration 1
requests get_current_time, iteration 2 stops with the text), the turn
returns exactly the final text after two backend calls, and the final
history is system, user, assistant carrying the tool call, tool result,
assistant with the final text, in that order. -/
theorem C6_round_trip :
    process_user_input env_roundtrip (init_state "You are a test assistant." 20)
      "What time is it?" = .ok ("It\x27s 2:30 PM.", roundtrip_final, 2) := rfl

/-- C7: every invocation of the execute_system_command tool that
returns at all returns a dict whose status field is the string error;
its body is a pure constructor, so no argument is ever executed. -/
theorem C7_disabled_command_safety (env : Env) (kwargs : List (String × Json)) (r : Json)
    (h : execute_system_command_fn env kwargs = .ok r) :
    json_field r "status" = some (.str "error") := by
  unfold execute_system_command_fn at h
  cases hck : check_kwargs "execute_system_command" ["command"] kwargs with
  | error e => rw [hck] at h; simp [Bind.bind, Except.bind] at h
  | ok u =>
    rw [hck] at h
    cases hrq : require_kw "execute_system_command" kwargs "command" with
    | error e => rw [hrq] at h; simp [Bind.bind, Except.bind] at h
    | ok command =>
      rw [hrq] at h
      simp only [Bind.bind, Except.bind, Pure.pure, Except.pure, Except.ok.injEq] at h
      subst h
      rfl

/-- Witness for C7 at the concrete command string rm -rf /. -/
theorem C7_disabled_command_safety_witness :
    json_field (.obj [("status", .str "error"),
      ("message", .str "System command execution is disabled for security reasons."),
      ("command", .str "rm -rf /"),
      ("note", .str "To enable this, modify the execute_system_command function and implement proper security controls.")])
      "status" = some (.str "error") :=
  C7_disabled_command_safety env_demo [("command", .str "rm -rf /")] _ rfl

/-- C8: resetting the conversation leaves exactly the single system
message carrying the current system prompt, and resetting twice equals
resetting once. -/
theorem C8_reset_idempotent (st : AgentState) :
    get_conversation_history (reset_conversation st) =
      [⟨"system", some st.system_prompt, none, none, none⟩] ∧
    (get_conversation_history (reset_conversation st)).length = 1 ∧
    reset_conversation (reset_conversation st) = reset_conversation st :=
  ⟨rfl, rfl, rfl⟩

/-- Witness for C8 at a concrete prior state. -/
theorem C8_reset_idempotent_witness :
    get_conversation_history (reset_conversation (init_state "s" 2)) =
      [⟨"system", some "s", none, none, none⟩] ∧
    (get_conversation_history (reset_conversation (init_state "s" 2))).length = 1 ∧
    reset_conversation (reset_conversation (init_state "s" 2)) =
      reset_conversation (init_state "s" 2) :=
  C8_reset_idempotent (init_state "s" 2)

/-- C9: the registry resolves strictly more names than the schema list
advertises: TOOL_SCHEMAS lists exactly five tools and omits
execute_system_command, yet get_tool_function resolves
execute_system_command, and it resolves the class docstring attribute
to a non-callable value instead of failing. -/
theorem C9_resolution_domain :
    schema_names =
      ["get_current_time", "get_current_weather", "search_web", "get_system_info", "calculate"] ∧
    TOOL_SCHEMAS.length = 5 ∧
    "execute_system_command" ∉ schema_names ∧
    get_tool_function "execute_system_command" = .ok (.callable execute_system_command_fn) ∧
    get_tool_function "__doc__" = .ok (.value (.str toolbox_doc)) ∧
    (ToolAttr.value (.str toolbox_doc)).is_callable = false :=
  ⟨rfl, rfl, by decide, rfl, rfl, rfl⟩

/-- C10: the result list of search_web holds exactly three entries for
every requested count of at least three and no entries for a count of
at most zero, while the advertised schema bounds num_results to the
range one to five. -/
theorem C10_search_cap :
    (∀ (q : String) (n : Int), 3 ≤ n →
      (search_results_of (ToolBox.search_web q n)).length = 3) ∧
    (∀ (q : String) (n : Int), n ≤ 0 →
      (search_results_of (ToolBox.search_web q n)).length = 0) ∧
    ((TOOL_SCHEMAS.find? (fun ts => ts.function.name == "search_web")).map
      (fun ts => (ts.function.properties.find? (fun p => p.1 == "num_results")).map
        (fun p => p.2))) =
      some (some ⟨"integer", "Number of search results to return (1-5)", none, some 1, some 5⟩) := by
  refine ⟨?_, ?_, rfl⟩
  · intro q n h
    show ((List.range (min n 3).toNat).map (search_result_entry q)).length = 3
    rw [List.length_map, List.length_range, min_eq_right h]
    rfl
  · intro q n h
    show ((List.range (min n 3).toNat).map (search_result_entry q)).length = 0
    rw [List.length_map, List.length_range]
    omega

/-- Witness for C10 at a schema-conforming request for five results and
at a non-positive request. -/
theorem C10_search_cap_witness :
    (search_results_of (ToolBox.search_web "cats" 5)).length = 3 ∧
    (search_results_of (ToolBox.search_web "cats" (-2))).length = 0 :=
  ⟨C10_search_cap.1 "cats" 5 (by decide), C10_search_cap.2.1 "cats" (-2) (by decide)⟩

/- ===== trim behaviour (C2) ===== -/

lemma trimmed_length_le (M : Nat) (hM : 1 ≤ M) (l : List Message) :
    (if l.length > M + 1 then l.take 1 ++ py_tail_slice M l else l).length ≤ M + 1 := by
  by_cases hc : l.length > M + 1
  · rw [if_pos hc, List.length_append, List.length_take]
    unfold py_tail_slice
    rw [if_neg (by omega : ¬ M = 0), List.length_drop]
    omega
  · rw [if_neg hc]
    omega

lemma trimmed_take_one (M : Nat) (x : Message) (xs : List Message) (msg : Message) :
    (if ((x :: xs) ++ [msg]).length > M + 1
      then ((x :: xs) ++ [msg]).take 1 ++ py_tail_slice M ((x :: xs) ++ [msg])
      else (x :: xs) ++ [msg]).take 1 = (x :: xs).take 1 := by
  by_cases hc : ((x :: xs) ++ [msg]).length > M + 1
  · rw [if_pos hc]
    simp
  · rw [if_neg hc]
    simp

/-- C2 counterexample: with maxHistory = 1, a turn in which the model
first requests a tool call makes the history reach three entries right
after the assistant tool-call message is appended (the ghost peak field
records the largest length right after a user/assistant append), which
exceeds 1 + maxHistory = 2: that append is not followed by a trim. -/
theorem C2_counterexample :
    Except.map (fun out => out.2.1.peak)
      (process_user_input env_trim (init_state "sys" 1) "hi") = .ok 3 ∧
    (init_state "sys" 1).max_history + 1 < 3 :=
  ⟨rfl, by decide⟩

/-- C2 amended: only the appends performed through add_message (the
user message and final or fallback assistant texts) are followed by the
trim, and for maxHistory at least 1 they keep the length at most
maxHistory + 1 and preserve the system message at position 0; the
assistant tool-call message and the tool-result messages are appended
raw, without any trim. -/
theorem C2_trim_amended :
    (∀ (st : AgentState) (r c : String) (nm : Option String),
      1 ≤ st.max_history → st.conversation_history ≠ [] →
      (add_message st r c nm).conversation_history.length ≤ st.max_history + 1 ∧
      (add_message st r c nm).conversation_history.take 1 =
        st.conversation_history.take 1) ∧
    (∀ (st : AgentState) (m : Message),
      (push st m).conversation_history = st.conversation_history ++ [m]) := by
  constructor
  · intro st r c nm hM hne
    obtain ⟨sp, mh, ch, pk⟩ := st
    cases ch with
    | nil => exact absurd rfl hne
    | cons x xs =>
      exact ⟨trimmed_length_le mh hM _, trimmed_take_one mh x xs _⟩
  · intro st m
    rfl

/-- Witness for the amended C2 at a concrete state. -/
theorem C2_trim_amended_witness :
    ((add_message (init_state "s" 2) "user" "hi" none).conversation_history.length ≤
        (init_state "s" 2).max_history + 1 ∧
      (add_message (init_state "s" 2) "user" "hi" none).conversation_history.take 1 =
        (init_state "s" 2).conversation_history.take 1) ∧
    (push (init_state "s" 2) ⟨"assistant", none, none, none, none⟩).conversation_history =
      (init_state "s" 2).conversation_history ++ [⟨"assistant", none, none, none, none⟩] :=
  ⟨C2_trim_amended.1 (init_state "s" 2) "user" "hi" none (by decide) (by decide),
   C2_trim_amended.2 (init_state "s" 2) ⟨"assistant", none, none, none, none⟩⟩

/- ===== argument deserialization failure (C1) ===== -/

/-- C1 counterexample: a tool call whose rawArguments string is not
valid JSON does not produce a status=error tool message; the turn ends
after one backend call with the generic backend-error fallback, and the
final history holds no tool-role message at all (roles are system,
user, assistant, assistant). -/
theorem C1_counterexample :
    Except.map
      (fun out => (out.1, out.2.1.conversation_history.map Message.role, out.2.2))
      (process_user_input env_badargs (init_state "p" 20) "hi") =
      .ok (error_response, ["system", "user", "assistant", "assistant"], 1) := rfl

/-- C1 corrected: when rawArguments fails to deserialize, json.loads
raises outside the per-invocation try/except; the exception is caught
by the turn-level handler, which appends the generic error_response as
an assistant message and ends the turn after that single backend call.
No status=error tool message is synthesized and the loop does not
continue. -/
theorem C1_no_local_recovery (env : Env) (st : AgentState) (input : String)
    (c : Option String) (tc : ToolCall) (e : String)
    (hb : env.backend 0 = .ok ⟨"tool_calls", c, some [tc]⟩)
    (hl : json_loads tc.function.arguments = .error e) :
    process_user_input env st input =
      .ok (error_response,
        add_message
          (push (add_message st "user" input none) ⟨"assistant", c, none, some [tc], none⟩)
          "assistant" error_response none,
        1) := by
  simp [process_user_input, max_iterations, agent_loop, loop_body, hb, truthy_calls,
    run_tool_calls, hl]

/-- Witness for the corrected C1 at the concrete mocked backend whose
tool call carries the argument string: not json. -/
theorem C1_no_local_recovery_witness :
    process_user_input env_badargs (init_state "q" 20) "hello" =
      .ok (error_response,
        add_message
          (push (add_message (init_state "q" 20) "user" "hello" none)
            ⟨"assistant", none, none,
              some [⟨"call_1", "function", ⟨"get_current_time", "not json"⟩⟩], none⟩)
          "assistant" error_response none,
        1) :=
  C1_no_local_recovery env_badargs (init_state "q" 20) "hello" none
    ⟨"call_1", "function", ⟨"get_current_time", "not json"⟩⟩ "Expecting value" rfl rfl

/- ===== tool isolation, totality and the iteration budget ===== -/

lemma run_tool_calls_ok (env : Env) (tcs : List ToolCall) :
    (∀ tc ∈ tcs, (json_loads tc.function.arguments).isOk = true) →
    ∀ st : AgentState, ∃ st', run_tool_calls env st tcs = .ok st' ∧
      st'.conversation_history = st.conversation_history ++
        tcs.map (fun tc => tool_result_message env tc (loads_val tc.function.arguments)) ∧
      st'.system_prompt = st.system_prompt ∧ st'.max_history = st.max_history := by
  induction tcs with
  | nil =>
    intro _ st
    exact ⟨st, rfl, by simp, rfl, rfl⟩
  | cons tc rest ih =>
    intro h st
    obtain ⟨v, hv⟩ : ∃ v, json_loads tc.function.arguments = .ok v := by
      have := h tc (by simp)
      cases hj : json_loads tc.function.arguments with
      | ok v => exact ⟨v, rfl⟩
      | error e => rw [hj] at this; simp [Except.isOk, Except.toBool] at this
    have hval : loads_val tc.function.arguments = v := by
      unfold loads_val
      rw [hv]
    obtain ⟨st', h1, h2, h3, h4⟩ :=
      ih (fun x hx => h x (by simp [hx])) (push st (tool_result_message env tc v))
    refine ⟨st', ?_, ?_, ?_, ?_⟩
    · unfold run_tool_calls
      rw [hv]
      exact h1
    · rw [h2]
      simp [push, hval]
    · exact h3
    · exact h4

lemma loop_body_good (env : Env) (call_idx : Nat) (st : AgentState)
    (c : Option String) (tcs : List ToolCall)
    (hb : env.backend call_idx = .ok ⟨"tool_calls", c, some tcs⟩)
    (hne : tcs ≠ [])
    (hargs : ∀ tc ∈ tcs, (json_loads tc.function.arguments).isOk = true) :
    ∃ st', loop_body env call_idx st = .ok (.next st') ∧
      st'.conversation_history = st.conversation_history ++
        (⟨"assistant", c, none, some tcs, none⟩ ::
          tcs.map (fun tc => tool_result_message env tc (loads_val tc.function.arguments))) ∧
      st'.system_prompt = st.system_prompt ∧ st'.max_history = st.max_history := by
  obtain ⟨st', h1, h2, h3, h4⟩ :=
    run_tool_calls_ok env tcs hargs (push st ⟨"assistant", c, none, some tcs, none⟩)
  cases tcs with
  | nil => exact absurd rfl hne
  | cons a as =>
    refine ⟨st', ?_, ?_, h3, h4⟩
    · unfold loop_body
      rw [hb]
      simp only [truthy_calls, Bool.and_true, beq_self_eq_true, if_true, Option.getD_some]
      rw [h1]
    · rw [h2]
      simp [push]

/-- C3: for every list of invocations whose arguments deserialize, the
iteration appends exactly one tool-role message per invocation and
branches to the next loop iteration (the turn neither ends nor sees the
failure propagate); whenever resolving or invoking one of the tools
raises, the content of its tool message is the serialized dict with
status=error carrying the exception text. -/
theorem C3_invocation_isolation (env : Env) (call_idx : Nat) (st : AgentState)
    (c : Option String) (tcs : List ToolCall)
    (hb : env.backend call_idx = .ok ⟨"tool_calls", c, some tcs⟩)
    (hne : tcs ≠ [])
    (hargs : ∀ tc ∈ tcs, (json_loads tc.function.arguments).isOk = true) :
    ∃ st', loop_body env call_idx st = .ok (.next st') ∧
      st'.conversation_history = st.conversation_history ++
        (⟨"assistant", c, none, some tcs, none⟩ ::
          tcs.map (fun tc => tool_result_message env tc (loads_val tc.function.arguments))) ∧
      (∀ tc ∈ tcs, ∀ e,
        attempt_tool env tc.function.name (loads_val tc.function.arguments) = .error e →
        (tool_result_message env tc (loads_val tc.function.arguments)).content =
          some (Json.dumps (.obj [("status", .str "error"), ("error", .str e)]))) := by
  obtain ⟨st', h1, h2, _, _⟩ := loop_body_good env call_idx st c tcs hb hne hargs
  refine ⟨st', h1, h2, ?_⟩
  intro tc _ e he
  simp [tool_result_message, execute_tool_call, he]

/-- Mock whose first response requests the two failing invocations. -/
def backend_failing : Nat → Except String BackendResponse
  | 0 => .ok ⟨"tool_calls", some "let me check", some tcs_failing⟩
  | _ => .error "no mocked response"

def env_failing : Env := ⟨backend_failing, no_eval, now_scenario, sys_scenario⟩

/-- Witness for C3: an unknown tool name and a tool invoked without its
required argument, both recovered as tool-role messages. -/
theorem C3_invocation_isolation_witness :
    ∃ st', loop_body env_failing 0 (init_state "p" 20) = .ok (.next st') ∧
      st'.conversation_history = (init_state "p" 20).conversation_history ++
        (⟨"assistant", some "let me check", none, some tcs_failing, none⟩ ::
          tcs_failing.map
            (fun tc => tool_result_message env_failing tc (loads_val tc.function.arguments))) ∧
      (∀ tc ∈ tcs_failing, ∀ e,
        attempt_tool env_failing tc.function.name (loads_val tc.function.arguments) = .error e →
        (tool_result_message env_failing tc (loads_val tc.function.arguments)).content =
          some (Json.dumps (.obj [("status", .str "error"), ("error", .str e)]))) :=
  C3_invocation_isolation env_failing 0 (init_state "p" 20) (some "let me check") tcs_failing
    rfl (by decide) (by decide)

lemma agent_loop_never_raises (env : Env) :
    ∀ (fuel calls : Nat) (st : AgentState), ∃ out, agent_loop env fuel calls st = .ok out := by
  intro fuel
  induction fuel with
  | zero =>
    intro calls st
    exact ⟨_, rfl⟩
  | succ n ih =>
    intro calls st
    unfold agent_loop
    cases h : loop_body env calls st with
    | error es =>
      obtain ⟨e, st2⟩ := es
      exact ⟨_, rfl⟩
    | ok so =>
      cases so with
      | done a s2 => exact ⟨_, rfl⟩
      | next s2 => exact ih (calls + 1) s2

/-- C4: for every environment behaviour (backend calls that raise,
anomalous finish reasons, tools that raise) and every prior state and
input, process_user_input ends on the ok side of the exception channel,
returning a string: no exception escapes to the caller. -/
theorem C4_never_raises (env : Env) (st : AgentState) (input : String) :
    ∃ out, process_user_input env st input = .ok out :=
  agent_loop_never_raises env max_iterations 0 (add_message st "user" input none)

/-- Witness for C4 at a backend that raises on every call. -/
theorem C4_never_raises_witness :
    ∃ out, process_user_input env_demo (init_state "p" 20) "ping" = .ok out :=
  C4_never_raises env_demo (init_state "p" 20) "ping"

lemma trim_getLast (M : Nat) (l : List Message) (msg : Message) :
    (if (l ++ [msg]).length > M + 1 then (l ++ [msg]).take 1 ++ py_tail_slice M (l ++ [msg])
      else l ++ [msg]).getLast? = some msg := by
  by_cases hc : (l ++ [msg]).length > M + 1
  · rw [if_pos hc]
    unfold py_tail_slice
    by_cases hM : M = 0
    · rw [if_pos hM, ← List.append_assoc]
      exact List.getLast?_concat _
    · rw [if_neg hM]
      have hk : (l ++ [msg]).length - M ≤ l.length := by
        rw [List.length_append]
        simp only [List.length_singleton]
        omega
      rw [List.drop_append_of_le_length hk, ← List.append_assoc]
      exact List.getLast?_concat _
  · rw [if_neg hc]
    exact List.getLast?_concat _

lemma add_message_getLast (st : AgentState) (r c : String) :
    (add_message st r c none).conversation_history.getLast? =
      some ⟨r, some c, none, none, none⟩ := by
  obtain ⟨sp, mh, ch, pk⟩ := st
  exact trim_getLast mh ch _

lemma agent_loop_budget (env : Env) :
    ∀ (fuel calls : Nat) (st : AgentState),
    (∀ i, calls ≤ i → i < calls + fuel →
      ∃ c tcs, env.backend i = .ok ⟨"tool_calls", c, some tcs⟩ ∧ tcs ≠ [] ∧
        ∀ tc ∈ tcs, (json_loads tc.function.arguments).isOk = true) →
    ∃ stF, agent_loop env fuel calls st = .ok (timeout_response, stF, calls + fuel) ∧
      stF.conversation_history.getLast? =
        some ⟨"assistant", some timeout_response, none, none, none⟩ := by
  intro fuel
  induction fuel with
  | zero =>
    intro calls st _
    exact ⟨_, rfl, add_message_getLast st "assistant" timeout_response⟩
  | succ n ih =>
    intro calls st h
    obtain ⟨c, tcs, hb, hne, hargs⟩ := h calls (Nat.le_refl _) (by omega)
    obtain ⟨st', hlb, _, _, _⟩ := loop_body_good env calls st c tcs hb hne hargs
    obtain ⟨stF, h1, h2⟩ := ih (calls + 1) st' (fun i hi1 hi2 => h i (by omega) (by omega))
    have harith : calls + 1 + n = calls + (n + 1) := by omega
    rw [harith] at h1
    refine ⟨stF, ?_, h2⟩
    unfold agent_loop
    rw [hlb]
    exact h1

/-- C5: when the backend requests well-formed tool calls on every call,
process_user_input makes exactly max_iterations (five) backend calls,
then appends and returns the fixed unable-to-complete fallback. -/
theorem C5_iteration_bound (env : Env) (st : AgentState) (input : String)
    (h : ∀ i, i < max_iterations →
      ∃ c tcs, env.backend i = .ok ⟨"tool_calls", c, some tcs⟩ ∧ tcs ≠ [] ∧
        ∀ tc ∈ tcs, (json_loads tc.function.arguments).isOk = true) :
    ∃ stF, process_user_input env st input = .ok (timeout_response, stF, max_iterations) ∧
      stF.conversation_history.getLast? =
        some ⟨"assistant", some timeout_response, none, none, none⟩ := by
  have := agent_loop_budget env max_iterations 0 (add_message st "user" input none)
    (fun i _ hi => h i (by omega))
  simpa [process_user_input] using this

/-- Witness for C5: the mocked backend that requests the same
well-formed tool call forever. -/
theorem C5_iteration_bound_witness :
    ∃ stF, process_user_input env_always_tools (init_state "p" 2) "go" =
        .ok (timeout_response, stF, max_iterations) ∧
      stF.conversation_history.getLast? =
        some ⟨"assistant", some timeout_response, none, none, none⟩ :=
  C5_iteration_bound env_always_tools (init_state "p" 2) "go"
    (fun _ _ => ⟨none, [⟨"call_t", "function", ⟨"get_current_time", "\x7b\x7d"⟩⟩],
      rfl, by decide, by decide⟩)
